import Mathlib

/-!
Verification of the gluegun runtime core (`src/runtime/runtime.ts`).

The TypeScript class `Runtime` is embedded shallowly: the mutable object
becomes an explicit state record, each method becomes a state-passing
function, and a thrown JavaScript exception becomes the `thrown` constructor
of `CallResult` (carrying the message together with the state at the moment
of the throw, since mutations made before a throw persist on the object).
External collaborators (plugin loader, config loader, command preloader,
filesystem predicates, path resolution) are parameters gathered in `Env`.
Setup functions and command bodies are opaque to the runtime, so they are
represented by numeric identifiers.
-/

set_option autoImplicit false

/-- An extension registration: a context property name together with its setup
routine. Setup routines are opaque to the runtime; `setupId` stands for the
function object. -/
structure Extension where
  name : String
  setupId : Nat
deriving DecidableEq

/-- A command tree node: a name, an alias set, nested sub-commands and an
opaque body identifier. -/
inductive Command where
  | mk (name : String) (aliases : List String) (sub : List Command) (runId : Nat)

/-- The command's name. -/
def Command.name : Command → String
  | .mk n _ _ _ => n

/-- The command's alias set. -/
def Command.aliases : Command → List String
  | .mk _ a _ _ => a

/-- The command's nested sub-commands. -/
def Command.sub : Command → List Command
  | .mk _ _ s _ => s

/-- A loaded plugin descriptor. `oid` models JavaScript object identity: the
runtime compares plugins with `!==` (reference equality), which the loader
guarantees to be distinct for distinct loads. -/
structure Plugin where
  oid : Nat
  name : Option String
  directory : String
  hidden : Bool
  commands : List Command
  extensions : List Extension

/-- A configuration object: an association of keys to opaque values. -/
abbrev ConfigObj := List (String × Nat)

/-- The value held by the `defaultPlugin` field of the runtime. The source
initialises it to `null`; `addDefaultPlugin` assigns it the return value of
`addPlugin`, which is `this` — the Runtime object itself — so the slot can
also hold a self-reference to the runtime, which is not a `Plugin`. -/
inductive DefaultSlot where
  | null
  | runtimeSelf
  | plugin (p : Plugin)

/-- The state of one `Runtime` instance (the fields of the TypeScript class). -/
structure Runtime where
  brand : Option String
  plugins : List Plugin
  extensions : List Extension
  defaults : ConfigObj
  defaultPlugin : DefaultSlot
  config : ConfigObj

/-- A raw command descriptor passed to `addCommand` before preloading. -/
structure RawCommand where
  name : String
  payload : Nat

/-- The options bag passed to `addPlugin` / `addPlugins` / `addDefaultPlugin`.
Each field is `none` when the key is absent from the JavaScript object. The
`name` key itself holds an optional string (the brand may be undefined). -/
structure Options where
  required : Option Bool := none
  name : Option (Option String) := none
  hidden : Option Bool := none
  matching : Option String := none
  commandFilePattern : Option String := none
  extensionFilePattern : Option String := none
  preloadedCommands : Option Nat := none

/-- The options object `addPlugin` hands to `loadPluginFromDirectory`
(source lines 134-141). -/
structure LoadOpts where
  brand : Option String
  hidden : Option Bool
  name : Option (Option String)
  commandFilePattern : Option String
  extensionFilePattern : Option String
  preloadedCommands : Option Nat

/-- The external collaborators of the runtime (plugin loader, config loader,
command preloader, filesystem predicates, path resolution). The plugin loader
may throw, modelled by `Except`. -/
structure Env where
  isDirectory : String → Bool
  isBlank : String → Bool
  resolve : String → String
  loadPluginFromDirectory : String → LoadOpts → Except String Plugin
  loadConfig : Option String → String → Option ConfigObj
  loadCommandFromPreload : RawCommand → Command
  subdirectories : String → Bool → Option String → Bool → List String

/-- Result of calling a runtime method: either a normal return of the (new)
runtime state, or a thrown exception carrying the message and the state at
the moment of the throw. -/
inductive CallResult where
  | ok (r : Runtime)
  | thrown (msg : String) (r : Runtime)

/-- The runtime state after a call, whether it returned or threw. -/
def CallResult.state : CallResult → Runtime
  | .ok r => r
  | .thrown _ r => r

/-- JavaScript truthiness of the `required` option: absent and `false` are
falsy, `true` is truthy. -/
def truthy : Option Bool → Bool
  | some b => b
  | none => false

/-- `addExtension(name, setup)` (source lines 94-97): pushes `{name, setup}`
onto the extension sequence and returns the runtime. -/
def addExtension (r : Runtime) (n : String) (setupId : Nat) : Runtime :=
  { r with extensions := r.extensions ++ [⟨n, setupId⟩] }

/-- Opaque module object of `core-extensions/meta-extension`. -/
def metaExtensionModule : Nat := 0
/-- Opaque module object of `core-extensions/strings-extension`. -/
def stringsExtensionModule : Nat := 1
/-- Opaque module object of `core-extensions/print-extension`. -/
def printExtensionModule : Nat := 2
/-- Opaque module object of `core-extensions/template-extension`. -/
def templateExtensionModule : Nat := 3
/-- Opaque module object of `core-extensions/filesystem-extension`. -/
def filesystemExtensionModule : Nat := 4
/-- Opaque module object of `core-extensions/semver-extension`. -/
def semverExtensionModule : Nat := 5
/-- Opaque module object of `core-extensions/system-extension`. -/
def systemExtensionModule : Nat := 6
/-- Opaque module object of `core-extensions/http-extension`. -/
def httpExtensionModule : Nat := 7
/-- Opaque module object of `core-extensions/prompt-extension`. -/
def promptExtensionModule : Nat := 8
/-- Opaque module object of `core-extensions/patching-extension`. -/
def patchingExtensionModule : Nat := 9

/-- `addCoreExtensions()` (source lines 56-67). The registered names and the
required module of each registration follow the source lines exactly
(the source pairs several names with a differently-named module, e.g.
`strings` with `template-extension`). -/
def addCoreExtensions (r : Runtime) : Runtime :=
  addExtension (addExtension (addExtension (addExtension (addExtension
    (addExtension (addExtension (addExtension (addExtension (addExtension r
      "meta" metaExtensionModule)
      "strings" templateExtensionModule)
      "print" printExtensionModule)
      "template" filesystemExtensionModule)
      "filesystem" semverExtensionModule)
      "semver" systemExtensionModule)
      "system" promptExtensionModule)
      "http" httpExtensionModule)
      "prompt" stringsExtensionModule)
      "patching" patchingExtensionModule

/-- The `Runtime` constructor (source lines 31-41): initialises every field
and registers the core extensions. -/
def newRuntime (brand : Option String) : Runtime :=
  addCoreExtensions
    { brand := brand
      plugins := []
      extensions := []
      defaults := []
      defaultPlugin := .null
      config := [] }

/-- `addCommand(command)` (source lines 74-83). When `this.defaultPlugin` is
falsy (`null`) it throws the configuration error naming the command. When the
slot holds a plugin, the descriptor is passed through the command preloader
and `unshift` puts the result at index 0 of the plugin's command sequence.
When the slot holds the runtime self-reference (what `addDefaultPlugin`
actually stores), the slot is truthy but has no `commands` property, so
`undefined.unshift(...)` throws a TypeError. The embedding tracks the default
plugin's command list on the `defaultPlugin` slot (value semantics standing
in for the shared mutable object). -/
def addCommand (env : Env) (r : Runtime) (command : RawCommand) : CallResult :=
  match r.defaultPlugin with
  | .null =>
      .thrown ("Can\x27t add command " ++ command.name ++
        " - no default plugin. You may have forgotten a src() on your runtime.") r
  | .runtimeSelf =>
      .thrown "TypeError: Cannot read properties of undefined (reading \x27unshift\x27)" r
  | .plugin p =>
      let p1 : Plugin := { p with commands := env.loadCommandFromPreload command :: p.commands }
      .ok { r with defaultPlugin := .plugin p1 }

/-- The options object built on source lines 134-141 and passed to
`loadPluginFromDirectory`. -/
def loaderOpts (brand : Option String) (o : Options) : LoadOpts :=
  { brand := brand
    hidden := o.hidden
    name := o.name
    commandFilePattern := o.commandFilePattern
    extensionFilePattern := o.extensionFilePattern
    preloadedCommands := o.preloadedCommands }

/-- `addPlugin(directory, options)` (source lines 125-146). Not-a-directory:
throw when `options.required` is truthy, otherwise return unchanged. Else load
the plugin (a loader throw propagates with the state untouched), push it onto
the plugin registry, and register each of its extensions in declared order.
The return value on success is `this`, i.e. the resulting state itself. -/
def addPlugin (env : Env) (r : Runtime) (directory : String) (options : Options) :
    CallResult :=
  if !(env.isDirectory directory) then
    if truthy options.required then
      .thrown ("Error: couldn\x27t load plugin (not a directory): " ++ directory) r
    else
      .ok r
  else
    match env.loadPluginFromDirectory (env.resolve directory) (loaderOpts r.brand options) with
    | .error e => .thrown e r
    | .ok plugin =>
        .ok (plugin.extensions.foldl (fun acc ext => addExtension acc ext.name ext.setupId)
          { r with plugins := r.plugins ++ [plugin] })

/-- The option merge on source line 107:
`Object.assign({ required: true, name: this.brand }, options)` — the defaults
supply `required`/`name` only for keys the caller did not set; caller keys
override both defaults. -/
def assignDefaults (brand : Option String) (options : Options) : Options :=
  { options with
      required := some (options.required.getD true)
      name := some (options.name.getD brand) }

/-- The tail of `addDefaultPlugin` after the inner `addPlugin` call (source
lines 107-116). A throw from `addPlugin` propagates. Otherwise the local
`plugin` is the value `addPlugin` returned — `this`, the runtime itself — and
`this.defaultPlugin = plugin` stores that self-reference. The next statement,
`loadConfig(this.brand, defaultPlugin.value)`, reads the undeclared
identifier `defaultPlugin` (there is no such binding in scope), so evaluation
throws a ReferenceError before `loadConfig` is ever called and before
`this.defaults` / `this.config` are assigned. -/
def addDefaultPluginAfterLoad : CallResult → CallResult
  | .thrown e s => .thrown e s
  | .ok r1 =>
      .thrown "ReferenceError: defaultPlugin is not defined"
        { r1 with defaultPlugin := .runtimeSelf }

/-- `addDefaultPlugin(directory, options)` (source lines 106-116): the inner
`addPlugin` call receives the merged options, then the tail runs. -/
def addDefaultPlugin (env : Env) (r : Runtime) (directory : String) (options : Options) :
    CallResult :=
  addDefaultPluginAfterLoad (addPlugin env r directory (assignDefaults r.brand options))

/-- `dissoc('matching', options)` on source line 162: the forwarded options
with the `matching` key removed. -/
def dissocMatching (o : Options) : Options :=
  { o with matching := none }

/-- The `subdirs.forEach(dir => this.addPlugin(dir, ...))` loop of
`addPlugins` (source line 162): each directory in turn through `addPlugin`;
a throw aborts the loop, keeping the effects of the completed iterations. -/
def processDirs (env : Env) (o : Options) : Runtime → List String → CallResult
  | r, [] => .ok r
  | r, d :: ds =>
      match addPlugin env r d o with
      | .ok r1 => processDirs env o r1 ds
      | .thrown e s => .thrown e s

/-- `addPlugins(directory, options)` (source lines 155-165): no-op when the
directory is blank or not a directory; otherwise list the immediate
subdirectories (non-recursive, filtered by the `matching` glob, hidden
included) and load each with the `matching` key stripped from the options. -/
def addPlugins (env : Env) (r : Runtime) (directory : String) (options : Options) :
    CallResult :=
  if env.isBlank directory || !(env.isDirectory directory) then
    .ok r
  else
    processDirs env (dissocMatching options) r
      (env.subdirectories directory false options.matching true)

/-- One public mutating call on the runtime, for stating invariants over
arbitrary call sequences. -/
inductive RuntimeOp where
  | addExtensionOp (n : String) (setupId : Nat)
  | addCommandOp (c : RawCommand)
  | addPluginOp (d : String) (o : Options)
  | addPluginsOp (d : String) (o : Options)
  | addDefaultPluginOp (d : String) (o : Options)

/-- The state after one call (the state at the throw, for a throwing call). -/
def applyOp (env : Env) (r : Runtime) : RuntimeOp → Runtime
  | .addExtensionOp n s => addExtension r n s
  | .addCommandOp c => (addCommand env r c).state
  | .addPluginOp d o => (addPlugin env r d o).state
  | .addPluginsOp d o => (addPlugins env r d o).state
  | .addDefaultPluginOp d o => (addDefaultPlugin env r d o).state

/-- The state after a sequence of calls. -/
def applyOps (env : Env) (r : Runtime) (ops : List RuntimeOp) : Runtime :=
  ops.foldl (applyOp env) r

/-- Modelled from the spec: the repository's `src/loaders/runtime-find-command.ts`
(imported as `findCommand` on source line 7) is not under `src/`; this is the
per-plugin command-tree walk of spec §4.4 steps 2-3. A token is consumed
against a command's name or alias set (case-sensitive exact match); on a
match the walk descends greedily into the sub-commands, and the deepest
successful consumption wins, with the unconsumed tokens as remainder. -/
def findInCommands : List String → List Command → Option (Command × List String)
  | [], _ => none
  | token :: rest, commands =>
      match commands.find? (fun c => token == c.name || c.aliases.contains token) with
      | none => none
      | some c =>
          match findInCommands rest c.sub with
          | some deeper => some deeper
          | none => some (c, rest)

/-- JavaScript `p !== this.defaultPlugin` (source line 179), negated: true
when the slot holds exactly this plugin object (reference equality via
`oid`). A `null` or runtime-self slot equals no plugin. -/
def refEq : DefaultSlot → Plugin → Bool
  | .plugin q, p => q.oid == p.oid
  | _, _ => false

/-- Modelled from the spec (§4.4 step 1), corroborated by source lines
179-180: the search order over plugins is the default plugin first when the
slot holds a plugin, then every other registered plugin in registration
order; a slot that holds no plugin (null or the runtime self-reference) is
skipped. -/
def searchOrder (r : Runtime) : List Plugin :=
  let otherPlugins := r.plugins.filter (fun p => !(refEq r.defaultPlugin p))
  match r.defaultPlugin with
  | .plugin p => p :: otherPlugins
  | _ => otherPlugins

/-- Modelled from the spec: the resolver of the missing
`runtime-find-command.ts` (spec §4.4 step 4) — the first plugin in search
order that yields any match wins; within a plugin the walk is
`findInCommands`. -/
def findCommand (r : Runtime) (tokens : List String) :
    Option (Plugin × Command × List String) :=
  (searchOrder r).findSome? (fun p =>
    match findInCommands tokens p.commands with
    | some (c, rest) => some (p, c, rest)
    | none => none)

/-- A plugin fixture: one extension named `print` (the same name as a core
built-in, so a registration of it shadows the built-in). -/
def demoPlugin : Plugin :=
  { oid := 1
    name := some "p1"
    directory := "/plugins/p1"
    hidden := false
    commands := []
    extensions := [⟨"print", 42⟩] }

/-- An environment fixture in which every path is a directory and the plugin
loader always yields `demoPlugin`. -/
def demoEnv : Env :=
  { isDirectory := fun _ => true
    isBlank := fun s => s == ""
    resolve := fun s => s
    loadPluginFromDirectory := fun _ _ => .ok demoPlugin
    loadConfig := fun _ _ => some [("defaults", 7), ("other", 8)]
    loadCommandFromPreload := fun rc => .mk rc.name [] [] rc.payload
    subdirectories := fun _ _ _ _ => [] }

/-- An environment fixture in which no path is a directory. -/
def noDirEnv : Env :=
  { demoEnv with isDirectory := fun _ => false }

/-- An environment fixture whose plugin loader throws on `/plugins/bad` and
loads `demoPlugin` everywhere else. -/
def failEnv : Env :=
  { demoEnv with loadPluginFromDirectory := fun path _ =>
      if path == "/plugins/bad" then .error "kaboom" else .ok demoPlugin }

/-- A freshly constructed runtime with brand `test`. -/
def rt0 : Runtime := newRuntime (some "test")

/-- `rt0` after a successful `addPlugin` of `demoPlugin`: the plugin is
appended to the registry and its `print` extension to the extension
sequence. -/
def rGood : Runtime :=
  { rt0 with plugins := [demoPlugin], extensions := rt0.extensions ++ [⟨"print", 42⟩] }

/-- The state `addDefaultPlugin` leaves behind when it throws its
ReferenceError: `rGood` with the default slot holding the runtime
self-reference. -/
def rt1 : Runtime :=
  { rGood with defaultPlugin := .runtimeSelf }

/-- Folding `addExtension` over a list of extensions appends exactly that
list to the extension sequence and changes nothing else. -/
theorem foldl_addExtension (exts : List Extension) :
    ∀ r : Runtime,
      exts.foldl (fun acc e => addExtension acc e.name e.setupId) r
        = { r with extensions := r.extensions ++ exts } := by
  induction exts with
  | nil => intro r; cases r; simp
  | cons e es ih =>
      intro r
      cases r with
      | mk b pl ext df dp cf =>
          cases e with
          | mk n s =>
              rw [List.foldl_cons, ih]
              simp [addExtension]

/-- C10: immediately after construction the extension sequence has exactly the
ten core entries, named (in order) meta, strings, print, template, filesystem,
semver, system, http, prompt, patching; the plugin registry is empty, the
default-plugin slot is null, and `defaults` and `config` are empty objects. -/
theorem runtime_constructor_initial_state (brand : Option String) :
    (newRuntime brand).extensions.map Extension.name
      = ["meta", "strings", "print", "template", "filesystem",
         "semver", "system", "http", "prompt", "patching"]
    ∧ (newRuntime brand).extensions.length = 10
    ∧ (newRuntime brand).plugins = []
    ∧ (newRuntime brand).defaultPlugin = DefaultSlot.null
    ∧ (newRuntime brand).defaults = []
    ∧ (newRuntime brand).config = [] :=
  ⟨rfl, rfl, rfl, rfl, rfl, rfl⟩

/-- C5 counterexample: the options merge of `addDefaultPlugin` does not force
`required` to true — a caller-supplied `required: false` survives the merge,
and behaviourally a missing directory then produces no "not a directory"
throw from the inner `addPlugin` (the call proceeds, so the later
ReferenceError is reached), whereas with no caller `required` the inner
`addPlugin` throws the "not a directory" error. -/
theorem addDefaultPlugin_required_not_forced_cex :
    (assignDefaults (some "test") { required := some false }).required ≠ some true
    ∧ addDefaultPlugin noDirEnv rt0 "/nope" { required := some false }
        = .thrown "ReferenceError: defaultPlugin is not defined"
            { rt0 with defaultPlugin := .runtimeSelf }
    ∧ addDefaultPlugin noDirEnv rt0 "/nope" {}
        = .thrown ("Error: couldn\x27t load plugin (not a directory): " ++ "/nope") rt0 :=
  ⟨by decide, rfl, rfl⟩

/-- C5 (amended): in `addDefaultPlugin`'s option merge, `required` defaults to
true and `name` defaults to the runtime's brand, but a caller-supplied value
takes precedence for both (so `required: false` is forwarded as false); all
other option keys pass through unchanged, and the inner `addPlugin` call
receives exactly the merged options. -/
theorem addDefaultPlugin_option_merge_spec (brand : Option String) (o : Options)
    (env : Env) (r : Runtime) (d : String) :
    (assignDefaults brand o).required = some (o.required.getD true)
    ∧ (assignDefaults brand o).name = some (o.name.getD brand)
    ∧ (assignDefaults brand o).hidden = o.hidden
    ∧ (assignDefaults brand o).matching = o.matching
    ∧ (assignDefaults brand o).commandFilePattern = o.commandFilePattern
    ∧ (assignDefaults brand o).extensionFilePattern = o.extensionFilePattern
    ∧ (assignDefaults brand o).preloadedCommands = o.preloadedCommands
    ∧ addDefaultPlugin env r d o
        = addDefaultPluginAfterLoad (addPlugin env r d (assignDefaults r.brand o)) :=
  ⟨rfl, rfl, rfl, rfl, rfl, rfl, rfl, rfl⟩

/-- C2: evaluating `addDefaultPlugin` on a loadable directory shows the bug:
the inner `addPlugin` returns `this`, so the default-plugin slot receives the
runtime self-reference rather than the loaded plugin that was appended to the
registry, and the call then throws a ReferenceError (the undeclared
identifier `defaultPlugin` on source line 111) instead of completing
configuration aggregation. -/
theorem addDefaultPlugin_stores_runtime_not_plugin :
    addDefaultPlugin demoEnv rt0 "/plugins/p1" {}
      = .thrown "ReferenceError: defaultPlugin is not defined" rt1
    ∧ rt1.plugins = [demoPlugin]
    ∧ rt1.defaultPlugin = DefaultSlot.runtimeSelf
    ∧ rt1.defaultPlugin ≠ DefaultSlot.plugin demoPlugin :=
  ⟨rfl, rfl, rfl, fun h => DefaultSlot.noConfusion h⟩

/-- C6: at the same failing input, configuration aggregation never happens:
although the config loader would return an object with a `defaults` key and
another key, the ReferenceError thrown on source line 111 aborts the call
before `this.defaults` and `this.config` are assigned, so both remain the
constructor's empty objects. -/
theorem addDefaultPlugin_config_aggregation_crash :
    addDefaultPlugin demoEnv rt0 "/plugins/p1" {}
      = .thrown "ReferenceError: defaultPlugin is not defined" rt1
    ∧ demoEnv.loadConfig (some "test") "/plugins/p1" = some [("defaults", 7), ("other", 8)]
    ∧ rt1.defaults = []
    ∧ rt1.config = [] :=
  ⟨rfl, rfl, rfl, rfl⟩

/-- The default plugin with a freshly preloaded command put at index 0 of
its command sequence (the effect of `unshift` on source line 81). -/
def prependCommand (p : Plugin) (c : Command) : Plugin :=
  { p with commands := c :: p.commands }

/-- A raw command fixture. -/
def demoRaw : RawCommand := { name := "greet", payload := 5 }

/-- `rt0` with the default slot holding `demoPlugin` (the field is public in
the source, so such a state is reachable by direct assignment). -/
def rWithDefault : Runtime :=
  { rt0 with defaultPlugin := .plugin demoPlugin }

/-- C3: `addCommand` throws a configuration error whose message contains the
command's name when no default plugin is set; when the default slot holds a
plugin, the descriptor goes through the command preloader and the result is
placed at index 0 of the default plugin's command sequence, ahead of every
previously present command. -/
theorem addCommand_default_plugin_spec (env : Env) (r : Runtime) (cmd : RawCommand) :
    (r.defaultPlugin = DefaultSlot.null →
      addCommand env r cmd
        = .thrown ("Can\x27t add command " ++ cmd.name ++
            " - no default plugin. You may have forgotten a src() on your runtime.") r
      ∧ ∃ pre post,
          ("Can\x27t add command " ++ cmd.name ++
            " - no default plugin. You may have forgotten a src() on your runtime.")
            = pre ++ (cmd.name ++ post))
    ∧ ∀ p : Plugin, r.defaultPlugin = DefaultSlot.plugin p →
        addCommand env r cmd
          = .ok { r with defaultPlugin := .plugin (prependCommand p (env.loadCommandFromPreload cmd)) } := by
  constructor
  · intro h
    refine ⟨?_, "Can\x27t add command ",
      " - no default plugin. You may have forgotten a src() on your runtime.", rfl⟩
    simp [addCommand, h]
  · intro p h
    simp [addCommand, prependCommand, h]

/-- C3 witness: on a fresh runtime (no default plugin) adding `greet` throws
the error naming `greet`; on a runtime whose default slot holds `demoPlugin`
the preloaded command lands at index 0. -/
theorem addCommand_default_plugin_spec_witness :
    addCommand demoEnv rt0 demoRaw
      = .thrown ("Can\x27t add command " ++ demoRaw.name ++
          " - no default plugin. You may have forgotten a src() on your runtime.") rt0
    ∧ addCommand demoEnv rWithDefault demoRaw
        = .ok { rWithDefault with defaultPlugin := .plugin (prependCommand demoPlugin (demoEnv.loadCommandFromPreload demoRaw)) } :=
  ⟨((addCommand_default_plugin_spec demoEnv rt0 demoRaw).1 rfl).1,
   (addCommand_default_plugin_spec demoEnv rWithDefault demoRaw).2 demoPlugin rfl⟩

/-- C4: when the target path is not an existing directory, `addPlugin` with a
truthy `required` throws an error whose message contains the path, and with
`required` false or absent it returns normally with the state — plugin
registry and extension sequence included — exactly as before the call. -/
theorem addPlugin_missing_directory_spec (env : Env) (r : Runtime) (d : String)
    (o : Options) (hdir : env.isDirectory d = false) :
    (truthy o.required = true →
      addPlugin env r d o
        = .thrown ("Error: couldn\x27t load plugin (not a directory): " ++ d) r
      ∧ ∃ pre, ("Error: couldn\x27t load plugin (not a directory): " ++ d) = pre ++ d)
    ∧ (truthy o.required = false →
      addPlugin env r d o = .ok r
      ∧ (addPlugin env r d o).state.plugins = r.plugins
      ∧ (addPlugin env r d o).state.extensions = r.extensions)
    ∧ truthy none = false := by
  refine ⟨fun hreq => ⟨?_, "Error: couldn\x27t load plugin (not a directory): ", rfl⟩,
    fun hreq => ?_, rfl⟩
  · simp [addPlugin, hdir, hreq]
  · have h : addPlugin env r d o = .ok r := by simp [addPlugin, hdir, hreq]
    refine ⟨h, ?_, ?_⟩ <;> rw [h] <;> rfl

/-- C4 witness: with an environment in which no path is a directory,
`addPlugin` on `/nonexistent` throws when required and is an identity when
the `required` key is absent. -/
theorem addPlugin_missing_directory_spec_witness :
    addPlugin noDirEnv rt0 "/nonexistent" { required := some true }
      = .thrown ("Error: couldn\x27t load plugin (not a directory): " ++ "/nonexistent") rt0
    ∧ addPlugin noDirEnv rt0 "/nonexistent" {} = .ok rt0 :=
  ⟨((addPlugin_missing_directory_spec noDirEnv rt0 "/nonexistent"
      { required := some true } rfl).1 rfl).1,
   ((addPlugin_missing_directory_spec noDirEnv rt0 "/nonexistent" {} rfl).2.1 rfl).1⟩

/-- A `status` command owned by the default plugin fixture. -/
def statusCmd1 : Command := .mk "status" [] [] 100

/-- A `status` command owned by the other plugin fixture. -/
def statusCmd2 : Command := .mk "status" [] [] 200

/-- The default plugin fixture for resolution: defines `status`. -/
def demoP1 : Plugin :=
  { oid := 11, name := some "host", directory := "/app", hidden := false
    commands := [statusCmd1], extensions := [] }

/-- Another plugin fixture: also defines `status`. -/
def demoP2 : Plugin :=
  { oid := 22, name := some "other", directory := "/other", hidden := false
    commands := [statusCmd2], extensions := [] }

/-- A runtime in which `demoP2` was registered before `demoP1`, and `demoP1`
is the default plugin. -/
def cRuntime : Runtime :=
  { rt0 with plugins := [demoP2, demoP1], defaultPlugin := .plugin demoP1 }

/-- C1: with a set default plugin the search order is the default plugin
first, then every other registered plugin in registration order; hence
whenever the default plugin's command tree matches the tokens, resolution
returns the default plugin's command — regardless of what any other
registered plugin defines or when it was registered. -/
theorem findCommand_default_plugin_first (r : Runtime) (p1 : Plugin)
    (hd : r.defaultPlugin = DefaultSlot.plugin p1) :
    searchOrder r = p1 :: r.plugins.filter (fun p => !(p1.oid == p.oid))
    ∧ ∀ (tokens : List String) (c : Command) (rest : List String),
        findInCommands tokens p1.commands = some (c, rest) →
        findCommand r tokens = some (p1, c, rest) := by
  have h1 : searchOrder r = p1 :: r.plugins.filter (fun p => !(p1.oid == p.oid)) := by
    simp [searchOrder, hd, refEq]
  refine ⟨h1, fun tokens c rest hf => ?_⟩
  simp [findCommand, h1, List.findSome?, hf]

/-- C1 witness: both plugins define `status`, `demoP2` was registered first,
`demoP1` is the default — the search order is `[demoP1, demoP2]` and
resolution of `["status"]` returns `demoP1`'s command. -/
theorem findCommand_default_plugin_first_witness :
    searchOrder cRuntime = [demoP1, demoP2]
    ∧ findCommand cRuntime ["status"] = some (demoP1, statusCmd1, []) := by
  have h := findCommand_default_plugin_first cRuntime demoP1 rfl
  exact ⟨h.1.trans (by rfl), h.2 ["status"] statusCmd1 [] rfl⟩

/-- On every branch, the state `addPlugin` leaves behind extends the previous
extension sequence by some (possibly empty) suffix. -/
theorem addPlugin_state_ext_extend (env : Env) (r : Runtime) (d : String) (o : Options) :
    ∃ t, (addPlugin env r d o).state.extensions = r.extensions ++ t := by
  by_cases hdir : env.isDirectory d = true
  · cases hl : env.loadPluginFromDirectory (env.resolve d) (loaderOpts r.brand o) with
    | error e =>
        exact ⟨[], by simp [addPlugin, hdir, hl, CallResult.state]⟩
    | ok p =>
        exact ⟨p.extensions,
          by simp [addPlugin, hdir, hl, CallResult.state, foldl_addExtension]⟩
  · rw [Bool.not_eq_true] at hdir
    by_cases hreq : truthy o.required = true
    · exact ⟨[], by simp [addPlugin, hdir, hreq, CallResult.state]⟩
    · rw [Bool.not_eq_true] at hreq
      exact ⟨[], by simp [addPlugin, hdir, hreq, CallResult.state]⟩

/-- The state left by the `addPlugins` loop extends the previous extension
sequence by some suffix. -/
theorem processDirs_state_ext_extend (env : Env) (o : Options) (ds : List String) :
    ∀ r : Runtime, ∃ t, (processDirs env o r ds).state.extensions = r.extensions ++ t := by
  induction ds with
  | nil => intro r; exact ⟨[], by simp [processDirs, CallResult.state]⟩
  | cons d ds ih =>
      intro r
      obtain ⟨t1, h1⟩ := addPlugin_state_ext_extend env r d o
      cases h : addPlugin env r d o with
      | ok r1 =>
          obtain ⟨t2, h2⟩ := ih r1
          rw [h] at h1
          simp [CallResult.state] at h1
          refine ⟨t1 ++ t2, ?_⟩
          have hstep : processDirs env o r (d :: ds) = processDirs env o r1 ds := by
            simp [processDirs, h]
          rw [hstep, h2, h1, List.append_assoc]
      | thrown e s =>
          rw [h] at h1
          simp [CallResult.state] at h1
          refine ⟨t1, ?_⟩
          have hstep : processDirs env o r (d :: ds) = .thrown e s := by
            simp [processDirs, h]
          rw [hstep]
          simpa [CallResult.state] using h1

/-- The state left by `addDefaultPlugin` extends the previous extension
sequence by some suffix. -/
theorem addDefaultPlugin_state_ext_extend (env : Env) (r : Runtime) (d : String)
    (o : Options) :
    ∃ t, (addDefaultPlugin env r d o).state.extensions = r.extensions ++ t := by
  obtain ⟨t, h⟩ := addPlugin_state_ext_extend env r d (assignDefaults r.brand o)
  cases hp : addPlugin env r d (assignDefaults r.brand o) with
  | ok r1 =>
      rw [hp] at h
      simp [CallResult.state] at h
      exact ⟨t, by simp [addDefaultPlugin, addDefaultPluginAfterLoad, hp, CallResult.state, h]⟩
  | thrown e s =>
      rw [hp] at h
      simp [CallResult.state] at h
      exact ⟨t, by simp [addDefaultPlugin, addDefaultPluginAfterLoad, hp, CallResult.state, h]⟩

/-- Every public mutating call leaves the previous extension sequence as a
prefix of the new one. -/
theorem applyOp_ext_extend (env : Env) (r : Runtime) (op : RuntimeOp) :
    ∃ t, (applyOp env r op).extensions = r.extensions ++ t := by
  cases op with
  | addExtensionOp n s => exact ⟨[⟨n, s⟩], rfl⟩
  | addCommandOp c =>
      cases hd : r.defaultPlugin with
      | null => exact ⟨[], by simp [applyOp, addCommand, hd, CallResult.state]⟩
      | runtimeSelf => exact ⟨[], by simp [applyOp, addCommand, hd, CallResult.state]⟩
      | plugin p => exact ⟨[], by simp [applyOp, addCommand, hd, CallResult.state]⟩
  | addPluginOp d o =>
      simpa [applyOp] using addPlugin_state_ext_extend env r d o
  | addPluginsOp d o =>
      by_cases hb : (env.isBlank d || !(env.isDirectory d)) = true
      · exact ⟨[], by simp [applyOp, addPlugins, hb, CallResult.state]⟩
      · rw [Bool.not_eq_true] at hb
        obtain ⟨t, h⟩ := processDirs_state_ext_extend env (dissocMatching o)
          (env.subdirectories d false o.matching true) r
        refine ⟨t, ?_⟩
        have hstep : applyOp env r (.addPluginsOp d o)
            = (processDirs env (dissocMatching o) r
                (env.subdirectories d false o.matching true)).state := by
          simp [applyOp, addPlugins, hb]
        rw [hstep]
        exact h
  | addDefaultPluginOp d o =>
      simpa [applyOp] using addDefaultPlugin_state_ext_extend env r d o

/-- Over any sequence of public calls, the starting extension sequence stays
a prefix of the final one. -/
theorem applyOps_ext_extend (env : Env) (ops : List RuntimeOp) :
    ∀ r : Runtime, ∃ t, (applyOps env r ops).extensions = r.extensions ++ t := by
  induction ops with
  | nil => intro r; exact ⟨[], by simp [applyOps]⟩
  | cons op ops ih =>
      intro r
      obtain ⟨t1, h1⟩ := applyOp_ext_extend env r op
      obtain ⟨t2, h2⟩ := ih (applyOp env r op)
      refine ⟨t1 ++ t2, ?_⟩
      have : applyOps env r (op :: ops) = applyOps env (applyOp env r op) ops := rfl
      rw [this, h2, h1, List.append_assoc]

/-- C7: the extension registry is append-only with no uniqueness check —
`addExtension` appends its entry at the end of the sequence; a loaded
plugin's extensions are appended in the plugin's declared order; and after
any sequence of public calls on a freshly constructed runtime the ten core
built-in entries (registered at construction, before any plugin) remain the
initial segment of the sequence, so any later plugin- or user-supplied
extension of the same name occurs strictly later than the built-in it
shadows. -/
theorem extension_registry_append_only :
    (∀ (r : Runtime) (n : String) (s : Nat),
        (addExtension r n s).extensions = r.extensions ++ [⟨n, s⟩])
    ∧ (∀ (env : Env) (r : Runtime) (d : String) (o : Options) (p : Plugin),
        env.isDirectory d = true →
        env.loadPluginFromDirectory (env.resolve d) (loaderOpts r.brand o) = Except.ok p →
        addPlugin env r d o
          = .ok { r with plugins := r.plugins ++ [p],
                         extensions := r.extensions ++ p.extensions })
    ∧ (∀ (env : Env) (brand : Option String) (ops : List RuntimeOp),
        ∃ t, (applyOps env (newRuntime brand) ops).extensions
          = (newRuntime brand).extensions ++ t) := by
  refine ⟨fun r n s => rfl, fun env r d o p hdir hl => ?_,
    fun env brand ops => applyOps_ext_extend env ops (newRuntime brand)⟩
  cases r with
  | mk b pl ext df dp cf => simp [addPlugin, hdir, hl, foldl_addExtension]

/-- C7 witness: loading `demoPlugin` (whose one extension is named `print`,
like a core built-in) appends its extension after the ten built-ins, and a
direct `addExtension` call is an append as well. -/
theorem extension_registry_append_only_witness :
    addPlugin demoEnv rt0 "/plugins/p1" {}
      = .ok { rt0 with plugins := rt0.plugins ++ [demoPlugin],
                       extensions := rt0.extensions ++ demoPlugin.extensions }
    ∧ ∃ t, (applyOps demoEnv (newRuntime (some "test"))
          [.addExtensionOp "print" 77]).extensions
        = (newRuntime (some "test")).extensions ++ t :=
  ⟨extension_registry_append_only.2.1 demoEnv rt0 "/plugins/p1" {} demoPlugin rfl rfl,
   extension_registry_append_only.2.2 demoEnv (some "test") [.addExtensionOp "print" 77]⟩

/-- A loader throw makes `addPlugin` rethrow with the state exactly as it was
before the call. -/
theorem addPlugin_loader_error (env : Env) (r : Runtime) (d : String) (o : Options)
    (e : String) (hdir : env.isDirectory d = true)
    (hl : env.loadPluginFromDirectory (env.resolve d) (loaderOpts r.brand o)
      = Except.error e) :
    addPlugin env r d o = .thrown e r := by
  simp [addPlugin, hdir, hl]

/-- In the `addPlugins` loop, a loader throw on a later directory leaves the
state produced by the earlier, successful iterations. -/
theorem processDirs_append_fail (env : Env) (o : Options) :
    ∀ (ds : List String) (r r1 : Runtime) (d : String) (more : List String) (e : String),
      processDirs env o r ds = .ok r1 →
      env.isDirectory d = true →
      env.loadPluginFromDirectory (env.resolve d) (loaderOpts r1.brand o)
        = Except.error e →
      processDirs env o r (ds ++ d :: more) = .thrown e r1 := by
  intro ds
  induction ds with
  | nil =>
      intro r r1 d more e hok hdir hl
      have hr : r = r1 := by simpa [processDirs] using hok
      subst hr
      simp [processDirs, addPlugin_loader_error env r d o e hdir hl]
  | cons d0 ds ih =>
      intro r r1 d more e hok hdir hl
      rw [List.cons_append]
      cases h : addPlugin env r d0 o with
      | ok r2 =>
          simp only [processDirs, h] at hok ⊢
          exact ih r2 r1 d more e hok hdir hl
      | thrown e2 s =>
          simp only [processDirs, h] at hok
          exact CallResult.noConfusion hok

/-- C8: a plugin-loader throw during `addPlugin` on an existing directory
aborts the call with the plugin registry and extension registry exactly as
they were immediately before it (the thrown result carries the unchanged
state `r`), and in an `addPlugins` batch the plugins loaded by earlier
iterations remain registered (the thrown result carries the state reached
just before the failing directory). -/
theorem addPlugin_loader_failure_atomic :
    (∀ (env : Env) (r : Runtime) (d : String) (o : Options) (e : String),
        env.isDirectory d = true →
        env.loadPluginFromDirectory (env.resolve d) (loaderOpts r.brand o)
          = Except.error e →
        addPlugin env r d o = .thrown e r)
    ∧ (∀ (env : Env) (o : Options) (ds : List String) (r r1 : Runtime) (d : String)
        (more : List String) (e : String),
        processDirs env o r ds = .ok r1 →
        env.isDirectory d = true →
        env.loadPluginFromDirectory (env.resolve d) (loaderOpts r1.brand o)
          = Except.error e →
        processDirs env o r (ds ++ d :: more) = .thrown e r1) :=
  ⟨addPlugin_loader_error,
   fun env o ds r r1 d more e => processDirs_append_fail env o ds r r1 d more e⟩

/-- C8 witness: in `failEnv` the loader throws on `/plugins/bad`; a direct
`addPlugin` on it leaves `rGood` untouched, and the batch
`["/plugins/p1", "/plugins/bad"]` ends thrown with the first plugin still
registered (state `rGood`). -/
theorem addPlugin_loader_failure_atomic_witness :
    addPlugin failEnv rGood "/plugins/bad" {} = .thrown "kaboom" rGood
    ∧ processDirs failEnv {} rt0 ["/plugins/p1", "/plugins/bad"]
        = .thrown "kaboom" rGood :=
  ⟨addPlugin_loader_failure_atomic.1 failEnv rGood "/plugins/bad" {} "kaboom" rfl rfl,
   addPlugin_loader_failure_atomic.2 failEnv {} ["/plugins/p1"] rt0 rGood
     "/plugins/bad" [] "kaboom" rfl rfl rfl⟩

/-- C9: `addPlugins` is a no-op returning the unchanged runtime when the
directory is blank or not a directory; otherwise it lists the immediate
subdirectories (non-recursive, `matching` filter, hidden included) and runs
the loop that calls `addPlugin` on each of them with an options object whose
`matching` key has been removed and every other key kept. -/
theorem addPlugins_spec :
    (∀ (env : Env) (r : Runtime) (d : String) (o : Options),
        (env.isBlank d || !(env.isDirectory d)) = true → addPlugins env r d o = .ok r)
    ∧ (∀ (env : Env) (r : Runtime) (d : String) (o : Options),
        (env.isBlank d || !(env.isDirectory d)) = false →
        addPlugins env r d o
          = processDirs env (dissocMatching o) r
              (env.subdirectories d false o.matching true))
    ∧ (∀ o : Options,
        (dissocMatching o).matching = none
        ∧ (dissocMatching o).required = o.required
        ∧ (dissocMatching o).name = o.name
        ∧ (dissocMatching o).hidden = o.hidden
        ∧ (dissocMatching o).commandFilePattern = o.commandFilePattern
        ∧ (dissocMatching o).extensionFilePattern = o.extensionFilePattern
        ∧ (dissocMatching o).preloadedCommands = o.preloadedCommands)
    ∧ (∀ (env : Env) (o : Options) (r : Runtime) (d : String) (ds : List String),
        processDirs env o r (d :: ds)
          = match addPlugin env r d o with
            | .ok r1 => processDirs env o r1 ds
            | .thrown e s => .thrown e s) := by
  refine ⟨fun env r d o h => by simp [addPlugins, h],
    fun env r d o h => by simp [addPlugins, h],
    fun o => ⟨rfl, rfl, rfl, rfl, rfl, rfl, rfl⟩,
    fun env o r d ds => rfl⟩

/-- C9 witness: a blank directory is a no-op; a listable directory routes to
the loop over its subdirectories with the `matching` key stripped. -/
theorem addPlugins_spec_witness :
    addPlugins demoEnv rt0 "" {} = .ok rt0
    ∧ addPlugins demoEnv rt0 "/plugins" {}
        = processDirs demoEnv (dissocMatching {}) rt0
            (demoEnv.subdirectories "/plugins" false ({} : Options).matching true) :=
  ⟨addPlugins_spec.1 demoEnv rt0 "" {} rfl,
   addPlugins_spec.2.1 demoEnv rt0 "/plugins" {} rfl⟩
